import Mathlib

/-!
Verification of `minitorch/datasets.py`: six synthetic 2D dataset
generators (`simple`, `diag`, `split`, `xor`, `circle`, `spiral`) and a
name-to-generator registry (`datasets`).

Embedding choices:
* Real-valued coordinates are modelled by `ℚ` so that every predicate is
  decidable and every definition is executable.
* `random.random()` is modelled by an explicit stream `rng : ℕ → Point`
  supplied to the sampler; `make_pts rng N` reads `N` consecutive samples,
  mirroring the loop `for i in range(N)` in the source.
* `math.cos` / `math.sin` are external library functions, modelled as
  parameters `mcos msin : ℚ → ℚ` of `spiral`.
* Counts are `ℤ` (Python ints); `range(N)` for `N < 0` is empty, which is
  `N.toNat = 0`; Python's floor division `N // 2` is `Int.fdiv N 2`.
* The generators contain no `raise` and no error type: they are total
  functions into `Graph`, exactly as in the source.
-/

namespace Minitorch

/-- A 2D point `(x1, x2)`. -/
abbrev Point := ℚ × ℚ

/-- Embedding of `make_pts`: `N` points read off the random stream `rng`,
mirroring `for i in range(N): X.append((random.random(), random.random()))`. -/
def make_pts (rng : ℕ → Point) (N : ℤ) : List Point :=
  (List.range N.toNat).map rng

/-- Embedding of the `Graph` dataclass: count `N`, points `X`, labels `y`. -/
structure Graph where
  N : ℤ
  X : List Point
  y : List ℤ
  deriving Repr, DecidableEq

/-- Embedding of `simple`: label `1 if x_1 < 0.5 else 0`. -/
def simple (rng : ℕ → Point) (N : ℤ) : Graph :=
  let X := make_pts rng N
  let y := X.map (fun p => if p.1 < 0.5 then (1 : ℤ) else 0)
  ⟨N, X, y⟩

/-- Embedding of `diag`: label `1 if x_1 + x_2 < 0.5 else 0`. -/
def diag (rng : ℕ → Point) (N : ℤ) : Graph :=
  let X := make_pts rng N
  let y := X.map (fun p => if p.1 + p.2 < 0.5 then (1 : ℤ) else 0)
  ⟨N, X, y⟩

/-- Embedding of `split`: label `1 if x_1 < 0.2 or x_1 > 0.8 else 0`. -/
def split (rng : ℕ → Point) (N : ℤ) : Graph :=
  let X := make_pts rng N
  let y := X.map (fun p => if p.1 < 0.2 ∨ p.1 > 0.8 then (1 : ℤ) else 0)
  ⟨N, X, y⟩

/-- Embedding of `xor`:
label `1 if x_1 < 0.5 and x_2 > 0.5 or x_1 > 0.5 and x_2 < 0.5 else 0`. -/
def xor (rng : ℕ → Point) (N : ℤ) : Graph :=
  let X := make_pts rng N
  let y := X.map (fun p =>
    if p.1 < 0.5 ∧ p.2 > 0.5 ∨ p.1 > 0.5 ∧ p.2 < 0.5 then (1 : ℤ) else 0)
  ⟨N, X, y⟩

/-- Embedding of `circle`: with `x1, x2 = x_1 - 0.5, x_2 - 0.5`,
label `1 if x1 * x1 + x2 * x2 > 0.1 else 0`. -/
def circle (rng : ℕ → Point) (N : ℤ) : Graph :=
  let X := make_pts rng N
  let y := X.map (fun p =>
    let x1 := p.1 - 0.5
    let x2 := p.2 - 0.5
    if x1 * x1 + x2 * x2 > 0.1 then (1 : ℤ) else 0)
  ⟨N, X, y⟩

/-- Embedding of `spiral`.  `x t = t*cos t/20`, `y t = t*sin t/20`;
the first comprehension ranges over `range(5 + 0, 5 + N // 2)` (that is,
`half = N // 2` indices starting at 5, none when `half ≤ 0`), producing
`(x (10*(i/half)) + 0.5, y (10*(i/half)) + 0.5)`; the second produces
`(y (-10*(i/half)) + 0.5, x (-10*(i/half)) + 0.5)`; labels are
`[0]*half ++ [1]*half`. -/
def spiral (mcos msin : ℚ → ℚ) (N : ℤ) : Graph :=
  let x := fun t : ℚ => t * mcos t / 20
  let y := fun t : ℚ => t * msin t / 20
  let half : ℤ := Int.fdiv N 2
  let X1 := (List.range' 5 half.toNat).map (fun i : ℕ =>
    (x (10 * ((i : ℚ) / (half : ℚ))) + 0.5, y (10 * ((i : ℚ) / (half : ℚ))) + 0.5))
  let X2 := (List.range' 5 half.toNat).map (fun i : ℕ =>
    (y (-10 * ((i : ℚ) / (half : ℚ))) + 0.5, x (-10 * ((i : ℚ) / (half : ℚ))) + 0.5))
  let y2 := List.replicate half.toNat (0 : ℤ) ++ List.replicate half.toNat (1 : ℤ)
  ⟨N, X1 ++ X2, y2⟩

/-- Tags naming the six generator functions, the values of the registry. -/
inductive GenTag
  | simple | diag | split | xor | circle | spiral
  deriving DecidableEq, Repr

/-- Interpretation of a registry tag as the generator function it names
(`rng` feeds the five random generators, `mcos`/`msin` feed `spiral`). -/
def GenTag.run : GenTag → (ℕ → Point) → (ℚ → ℚ) → (ℚ → ℚ) → ℤ → Graph
  | GenTag.simple, rng, _, _, N => Minitorch.simple rng N
  | GenTag.diag, rng, _, _, N => Minitorch.diag rng N
  | GenTag.split, rng, _, _, N => Minitorch.split rng N
  | GenTag.xor, rng, _, _, N => Minitorch.xor rng N
  | GenTag.circle, rng, _, _, N => Minitorch.circle rng N
  | GenTag.spiral, _, mcos, msin, N => Minitorch.spiral mcos msin N

/-- Embedding of the `datasets` dict as an association list, in source
order. -/
def datasets : List (String × GenTag) :=
  [("Simple", GenTag.simple), ("Diag", GenTag.diag), ("Split", GenTag.split),
   ("Xor", GenTag.xor), ("Circle", GenTag.circle), ("Spiral", GenTag.spiral)]

/-- Registry lookup: `datasets[name]`, `none` modelling Python's
`KeyError`. -/
def get_generator (name : String) : Option GenTag :=
  (datasets.find? (fun p => p.1 == name)).map Prod.snd

/-- The first spiral curve's point at index `i`, as the spec describes it:
`t = 10.0 * (i / half)`, point `(t*cos(t)/20 + 0.5, t*sin(t)/20 + 0.5)`. -/
def spiralCurve0 (mcos msin : ℚ → ℚ) (half : ℤ) (i : ℕ) : Point :=
  let t : ℚ := 10 * ((i : ℚ) / (half : ℚ))
  (t * mcos t / 20 + 0.5, t * msin t / 20 + 0.5)

/-- The second spiral curve's point at index `i`, as the spec describes it:
`t = -10.0 * (i / half)`, coordinate roles swapped:
`(t*sin(t)/20 + 0.5, t*cos(t)/20 + 0.5)`. -/
def spiralCurve1 (mcos msin : ℚ → ℚ) (half : ℤ) (i : ℕ) : Point :=
  let t : ℚ := -10 * ((i : ℚ) / (half : ℚ))
  (t * msin t / 20 + 0.5, t * mcos t / 20 + 0.5)

/-! ### Unfolding lemmas (each is `rfl` against the source embedding) -/

lemma simple_X (rng : ℕ → Point) (N : ℤ) : (simple rng N).X = make_pts rng N := rfl

lemma simple_y (rng : ℕ → Point) (N : ℤ) :
    (simple rng N).y =
      (make_pts rng N).map (fun p => if p.1 < 0.5 then (1 : ℤ) else 0) := rfl

lemma diag_X (rng : ℕ → Point) (N : ℤ) : (diag rng N).X = make_pts rng N := rfl

lemma diag_y (rng : ℕ → Point) (N : ℤ) :
    (diag rng N).y =
      (make_pts rng N).map (fun p => if p.1 + p.2 < 0.5 then (1 : ℤ) else 0) := rfl

lemma split_X (rng : ℕ → Point) (N : ℤ) : (split rng N).X = make_pts rng N := rfl

lemma split_y (rng : ℕ → Point) (N : ℤ) :
    (split rng N).y =
      (make_pts rng N).map (fun p => if p.1 < 0.2 ∨ p.1 > 0.8 then (1 : ℤ) else 0) := rfl

lemma xor_X (rng : ℕ → Point) (N : ℤ) : (xor rng N).X = make_pts rng N := rfl

lemma xor_y (rng : ℕ → Point) (N : ℤ) :
    (xor rng N).y = (make_pts rng N).map (fun p =>
      if p.1 < 0.5 ∧ p.2 > 0.5 ∨ p.1 > 0.5 ∧ p.2 < 0.5 then (1 : ℤ) else 0) := rfl

lemma circle_X (rng : ℕ → Point) (N : ℤ) : (circle rng N).X = make_pts rng N := rfl

lemma circle_y (rng : ℕ → Point) (N : ℤ) :
    (circle rng N).y = (make_pts rng N).map (fun p =>
      if (p.1 - 0.5) * (p.1 - 0.5) + (p.2 - 0.5) * (p.2 - 0.5) > 0.1
      then (1 : ℤ) else 0) := rfl

lemma spiral_X (mcos msin : ℚ → ℚ) (N : ℤ) :
    (spiral mcos msin N).X =
      (List.range' 5 (Int.fdiv N 2).toNat).map (spiralCurve0 mcos msin (Int.fdiv N 2)) ++
      (List.range' 5 (Int.fdiv N 2).toNat).map (spiralCurve1 mcos msin (Int.fdiv N 2)) := by
  unfold spiral spiralCurve0 spiralCurve1
  rfl

lemma spiral_y (mcos msin : ℚ → ℚ) (N : ℤ) :
    (spiral mcos msin N).y =
      List.replicate (Int.fdiv N 2).toNat (0 : ℤ) ++
      List.replicate (Int.fdiv N 2).toNat (1 : ℤ) := rfl

lemma spiral_N (mcos msin : ℚ → ℚ) (N : ℤ) : (spiral mcos msin N).N = N := rfl

/-! ### Helper lemmas -/

/-- Python's `N // 2` agrees with Lean's euclidean division for divisor 2. -/
lemma half_eq (N : ℤ) : Int.fdiv N 2 = N / 2 := Int.fdiv_eq_ediv N (by norm_num)

lemma make_pts_length (rng : ℕ → Point) (N : ℤ) :
    (make_pts rng N).length = N.toNat := by
  simp [make_pts]

lemma spiral_X_length (mcos msin : ℚ → ℚ) (N : ℤ) :
    (spiral mcos msin N).X.length = (Int.fdiv N 2).toNat + (Int.fdiv N 2).toNat := by
  rw [spiral_X]
  simp

lemma spiral_y_length (mcos msin : ℚ → ℚ) (N : ℤ) :
    (spiral mcos msin N).y.length = (Int.fdiv N 2).toNat + (Int.fdiv N 2).toNat := by
  rw [spiral_y]
  simp

/-- A label paired with its point in `X.zip (X.map f)` is the predicate's
value at that point. -/
lemma zip_map_label {α β : Type*} {X : List α} {f : α → β} {p : α} {l : β}
    (h : (p, l) ∈ X.zip (X.map f)) : l = f p := by
  induction X with
  | nil => simp at h
  | cons a X ih =>
    simp only [List.map_cons, List.zip_cons_cons, List.mem_cons] at h
    rcases h with h | h
    · rw [Prod.mk.injEq] at h
      rw [h.2, h.1]
    · exact ih h

/-- For `N < 2` the spiral index range is empty, so nothing is generated. -/
lemma half_toNat_zero {N : ℤ} (h : N < 2) : (Int.fdiv N 2).toNat = 0 := by
  rw [half_eq]
  omega

/-! ### Claim theorems -/

/-- Claim C10: `spiral` called with `N = 0` or `N = 1` returns
`Graph(N, [], [])` without any error: the index range
`range(5, 5 + N // 2)` is empty when `N // 2 == 0`, so the division by
`N // 2` is never evaluated. -/
theorem C10_spiral_small_empty (mcos msin : ℚ → ℚ) :
    spiral mcos msin 0 = ⟨0, [], []⟩ ∧ spiral mcos msin 1 = ⟨1, [], []⟩ :=
  ⟨rfl, rfl⟩

/-- Claim C3, amended: `spiral` with `N < 2` does not fail at all — neither
with a typed `InvalidCountError` (no such type exists in the code) nor with
a division-by-zero fault (the comprehension range is empty, so the division
is never evaluated).  It returns the ordinary dataset `Graph(N, [], [])`. -/
theorem C3_spiral_small_no_failure (mcos msin : ℚ → ℚ) (N : ℤ) (h : N < 2) :
    spiral mcos msin N = ⟨N, [], []⟩ := by
  simp [spiral, half_toNat_zero h]

/-- Claim C3, counterexample: at `N = 1 < 2`, `spiral` returns the ordinary
dataset `Graph(1, [], [])`; it does not raise `InvalidCountError` (the code
defines no such type and contains no `raise`), contradicting the claim that
the call fails. -/
theorem C3_counterexample :
    spiral (fun _ => (0 : ℚ)) (fun _ => (0 : ℚ)) 1 = ⟨1, [], []⟩ := rfl

/-- Claim C3, witness for the amended theorem at `N = 1`. -/
theorem C3_witness :
    (1 : ℤ) < 2 ∧ spiral (fun _ => (0 : ℚ)) (fun _ => (0 : ℚ)) 1 = ⟨1, [], []⟩ :=
  ⟨by norm_num,
   C3_spiral_small_no_failure (fun _ => (0 : ℚ)) (fun _ => (0 : ℚ)) 1 (by norm_num)⟩

/-- Claim C2, amended: no generator checks `N < 0` and none raises or
returns an `InvalidCountError` (the code defines no error type and contains
no `raise`): for `N < 0` every generator returns the ordinary dataset
`Graph(N, [], [])`, and for `N = 0` each of `simple`, `diag`, `split`,
`xor`, `circle` returns the valid empty dataset `Graph(0, [], [])`. -/
theorem C2_negative_and_zero_count (rng : ℕ → Point) (mcos msin : ℚ → ℚ)
    (N : ℤ) (hN : N < 0) :
    simple rng N = ⟨N, [], []⟩ ∧ diag rng N = ⟨N, [], []⟩ ∧
    split rng N = ⟨N, [], []⟩ ∧ xor rng N = ⟨N, [], []⟩ ∧
    circle rng N = ⟨N, [], []⟩ ∧ spiral mcos msin N = ⟨N, [], []⟩ ∧
    simple rng 0 = ⟨0, [], []⟩ ∧ diag rng 0 = ⟨0, [], []⟩ ∧
    split rng 0 = ⟨0, [], []⟩ ∧ xor rng 0 = ⟨0, [], []⟩ ∧
    circle rng 0 = ⟨0, [], []⟩ := by
  have ht : N.toNat = 0 := Int.toNat_of_nonpos hN.le
  refine ⟨?_, ?_, ?_, ?_, ?_, ?_, rfl, rfl, rfl, rfl, rfl⟩ <;>
    simp [simple, diag, split, xor, circle, spiral, make_pts, ht,
      half_toNat_zero (by omega : N < 2)]

/-- Claim C2, counterexample: `simple` called with the negative count
`N = -1` does not raise or return an `InvalidCountError`; it returns the
ordinary dataset `Graph(-1, [], [])`. -/
theorem C2_counterexample :
    simple (fun _ => ((0 : ℚ), (0 : ℚ))) (-1) = ⟨-1, [], []⟩ := by
  have : ((-1 : ℤ)).toNat = 0 := rfl
  simp [simple, make_pts, this]

/-- Claim C2, witness for the amended theorem at `N = -1`. -/
theorem C2_witness :
    (-1 : ℤ) < 0 ∧ simple (fun _ => ((0 : ℚ), (0 : ℚ))) (-1) = ⟨-1, [], []⟩ :=
  ⟨by norm_num,
   (C2_negative_and_zero_count (fun _ => ((0 : ℚ), (0 : ℚ)))
     (fun _ => (0 : ℚ)) (fun _ => (0 : ℚ)) (-1) (by norm_num)).1⟩

/-- Claim C1, amended: `len(points) == len(labels)` holds for all six
generators on every input; the full invariant
`len(points) == len(labels) == count` (with `count` the dataset's `N`
field) holds for `simple`, `diag`, `split`, `xor`, `circle` whenever
`N ≥ 0`, and for `spiral` whenever `N ≥ 0` and `N` is even — for odd `N`,
`spiral` returns `2 * (N // 2) = N - 1` points while its count field is
`N`, and for `N < 0` every generator returns empty lists while the count
field is the negative `N`. -/
theorem C1_length_invariant (rng : ℕ → Point) (mcos msin : ℚ → ℚ) (N : ℤ) :
    ((simple rng N).X.length = (simple rng N).y.length ∧
     (diag rng N).X.length = (diag rng N).y.length ∧
     (split rng N).X.length = (split rng N).y.length ∧
     (xor rng N).X.length = (xor rng N).y.length ∧
     (circle rng N).X.length = (circle rng N).y.length ∧
     (spiral mcos msin N).X.length = (spiral mcos msin N).y.length) ∧
    (0 ≤ N →
      (((simple rng N).X.length : ℤ) = (simple rng N).N ∧
       ((diag rng N).X.length : ℤ) = (diag rng N).N ∧
       ((split rng N).X.length : ℤ) = (split rng N).N ∧
       ((xor rng N).X.length : ℤ) = (xor rng N).N ∧
       ((circle rng N).X.length : ℤ) = (circle rng N).N)) ∧
    (0 ≤ N → N % 2 = 0 →
      ((spiral mcos msin N).X.length : ℤ) = (spiral mcos msin N).N) := by
  refine ⟨⟨?_, ?_, ?_, ?_, ?_, ?_⟩, ?_, ?_⟩
  · simp [simple, make_pts]
  · simp [diag, make_pts]
  · simp [split, make_pts]
  · simp [xor, make_pts]
  · simp [circle, make_pts]
  · rw [spiral_X_length, spiral_y_length]
  · intro hN
    refine ⟨?_, ?_, ?_, ?_, ?_⟩ <;>
      simp [simple, diag, split, xor, circle, make_pts] <;> omega
  · intro hN hEven
    rw [spiral_X_length, spiral_N, half_eq]
    omega

/-- Claim C1, counterexample: `spiral` at the odd count `N = 1` returns a
dataset whose count field is `1` but whose points list is empty, so
`len(points) == count` fails. -/
theorem C1_counterexample :
    ¬ (((spiral (fun _ => (0 : ℚ)) (fun _ => (0 : ℚ)) 1).X.length : ℤ) =
        (spiral (fun _ => (0 : ℚ)) (fun _ => (0 : ℚ)) 1).N) := by
  decide

/-- Claim C1, witness for the amended theorem at `N = 4`. -/
theorem C1_witness :
    (0 : ℤ) ≤ 4 ∧ (4 : ℤ) % 2 = 0 ∧
    ((simple (fun _ => ((0 : ℚ), (0 : ℚ))) 4).X.length : ℤ) =
      (simple (fun _ => ((0 : ℚ), (0 : ℚ))) 4).N ∧
    ((spiral (fun _ => (0 : ℚ)) (fun _ => (0 : ℚ)) 4).X.length : ℤ) =
      (spiral (fun _ => (0 : ℚ)) (fun _ => (0 : ℚ)) 4).N :=
  ⟨by norm_num, by norm_num,
   ((C1_length_invariant (fun _ => ((0 : ℚ), (0 : ℚ)))
      (fun _ => (0 : ℚ)) (fun _ => (0 : ℚ)) 4).2.1 (by norm_num)).1,
   (C1_length_invariant (fun _ => ((0 : ℚ), (0 : ℚ)))
      (fun _ => (0 : ℚ)) (fun _ => (0 : ℚ)) 4).2.2 (by norm_num) (by norm_num)⟩

/-- Claim C5: for every point `(x1, x2)` in a dataset returned by `xor`,
the aligned label is `1` if `x1 < 0.5 and x2 > 0.5` or
`x1 > 0.5 and x2 < 0.5`, and `0` otherwise; in particular the point
`(0.2, 0.8)` gets label `1` and the point `(0.2, 0.2)` gets label `0`. -/
theorem C5_xor_labels (rng : ℕ → Point) (N : ℤ) :
    (∀ p : Point, ∀ l : ℤ, (p, l) ∈ (xor rng N).X.zip (xor rng N).y →
      l = if p.1 < 0.5 ∧ p.2 > 0.5 ∨ p.1 > 0.5 ∧ p.2 < 0.5 then 1 else 0) ∧
    (xor (fun _ => ((0.2 : ℚ), (0.8 : ℚ))) 1).y = [1] ∧
    (xor (fun _ => ((0.2 : ℚ), (0.2 : ℚ))) 1).y = [0] := by
  refine ⟨?_, by norm_num [xor, make_pts], by norm_num [xor, make_pts]⟩
  intro p l h
  rw [xor_X, xor_y] at h
  have hl := zip_map_label h
  exact hl

/-- Claim C6: for every point `(x1, x2)` in a dataset returned by `circle`,
with `dx = x1 - 0.5` and `dy = x2 - 0.5`, the aligned label is `1` if
`dx*dx + dy*dy > 0.1` and `0` otherwise; in particular the point
`(0.5, 0.5)` gets label `0` and the point `(1.0, 1.0)` gets label `1`. -/
theorem C6_circle_labels (rng : ℕ → Point) (N : ℤ) :
    (∀ p : Point, ∀ l : ℤ, (p, l) ∈ (circle rng N).X.zip (circle rng N).y →
      l = if (p.1 - 0.5) * (p.1 - 0.5) + (p.2 - 0.5) * (p.2 - 0.5) > 0.1
          then 1 else 0) ∧
    (circle (fun _ => ((0.5 : ℚ), (0.5 : ℚ))) 1).y = [0] ∧
    (circle (fun _ => ((1 : ℚ), (1 : ℚ))) 1).y = [1] := by
  refine ⟨?_, by norm_num [circle, make_pts], by norm_num [circle, make_pts]⟩
  intro p l h
  rw [circle_X, circle_y] at h
  have hl := zip_map_label h
  exact hl

/-- Claim C7: all predicate comparisons are strict, so a point exactly on a
decision boundary falls to the `else` branch and is labeled `0`: a point
with `x1 = 0.5` is labeled `0` by `simple` and by `xor`, a point with
`x1 + x2 = 0.5` is labeled `0` by `diag`, and a point with `x1 = 0.2` or
`x1 = 0.8` is labeled `0` by `split`. -/
theorem C7_boundary_labels (rng : ℕ → Point) (N : ℤ) :
    (∀ p : Point, ∀ l : ℤ,
      (p, l) ∈ (simple rng N).X.zip (simple rng N).y → p.1 = 0.5 → l = 0) ∧
    (∀ p : Point, ∀ l : ℤ,
      (p, l) ∈ (xor rng N).X.zip (xor rng N).y → p.1 = 0.5 → l = 0) ∧
    (∀ p : Point, ∀ l : ℤ,
      (p, l) ∈ (diag rng N).X.zip (diag rng N).y → p.1 + p.2 = 0.5 → l = 0) ∧
    (∀ p : Point, ∀ l : ℤ,
      (p, l) ∈ (split rng N).X.zip (split rng N).y →
        p.1 = 0.2 ∨ p.1 = 0.8 → l = 0) ∧
    (simple (fun _ => ((0.5 : ℚ), (0.3 : ℚ))) 1).y = [0] ∧
    (xor (fun _ => ((0.5 : ℚ), (0.9 : ℚ))) 1).y = [0] ∧
    (diag (fun _ => ((0.2 : ℚ), (0.3 : ℚ))) 1).y = [0] ∧
    (split (fun _ => ((0.2 : ℚ), (0.5 : ℚ))) 1).y = [0] ∧
    (split (fun _ => ((0.8 : ℚ), (0.5 : ℚ))) 1).y = [0] := by
  refine ⟨?_, ?_, ?_, ?_, by norm_num [simple, make_pts],
    by norm_num [xor, make_pts], by norm_num [diag, make_pts],
    by norm_num [split, make_pts], by norm_num [split, make_pts]⟩
  · intro p l h hb
    rw [simple_X, simple_y] at h
    have hl := zip_map_label h
    subst hl
    norm_num [hb]
  · intro p l h hb
    rw [xor_X, xor_y] at h
    have hl := zip_map_label h
    subst hl
    norm_num [hb]
  · intro p l h hb
    rw [diag_X, diag_y] at h
    have hl := zip_map_label h
    subst hl
    norm_num [hb]
  · intro p l h hb
    rw [split_X, split_y] at h
    have hl := zip_map_label h
    subst hl
    rcases hb with hb | hb <;> norm_num [hb]

/-- Claim C9: for each of `simple`, `diag`, `split`, `xor`, `circle` and
every `N ≥ 0`, the returned dataset contains exactly `N` points, and every
label in the label sequence of every generator (including `spiral`) is
exactly `0` or `1`. -/
theorem C9_count_and_binary_labels (rng : ℕ → Point) (mcos msin : ℚ → ℚ)
    (N : ℤ) (hN : 0 ≤ N) :
    (((simple rng N).X.length : ℤ) = N ∧
     ((diag rng N).X.length : ℤ) = N ∧
     ((split rng N).X.length : ℤ) = N ∧
     ((xor rng N).X.length : ℤ) = N ∧
     ((circle rng N).X.length : ℤ) = N) ∧
    ((∀ l ∈ (simple rng N).y, l = 0 ∨ l = 1) ∧
     (∀ l ∈ (diag rng N).y, l = 0 ∨ l = 1) ∧
     (∀ l ∈ (split rng N).y, l = 0 ∨ l = 1) ∧
     (∀ l ∈ (xor rng N).y, l = 0 ∨ l = 1) ∧
     (∀ l ∈ (circle rng N).y, l = 0 ∨ l = 1) ∧
     (∀ l ∈ (spiral mcos msin N).y, l = 0 ∨ l = 1)) := by
  constructor
  · refine ⟨?_, ?_, ?_, ?_, ?_⟩ <;>
      simp [simple, diag, split, xor, circle, make_pts] <;> omega
  · refine ⟨?_, ?_, ?_, ?_, ?_, ?_⟩
    · intro l hl
      rw [simple_y] at hl
      rcases List.mem_map.1 hl with ⟨p, -, rfl⟩
      by_cases hc : p.1 < 0.5 <;> simp [hc]
    · intro l hl
      rw [diag_y] at hl
      rcases List.mem_map.1 hl with ⟨p, -, rfl⟩
      by_cases hc : p.1 + p.2 < 0.5 <;> simp [hc]
    · intro l hl
      rw [split_y] at hl
      rcases List.mem_map.1 hl with ⟨p, -, rfl⟩
      by_cases hc : p.1 < 0.2 ∨ p.1 > 0.8 <;> simp [hc]
    · intro l hl
      rw [xor_y] at hl
      rcases List.mem_map.1 hl with ⟨p, -, rfl⟩
      by_cases hc : p.1 < 0.5 ∧ p.2 > 0.5 ∨ p.1 > 0.5 ∧ p.2 < 0.5 <;> simp [hc]
    · intro l hl
      rw [circle_y] at hl
      rcases List.mem_map.1 hl with ⟨p, -, rfl⟩
      by_cases hc :
        (p.1 - 0.5) * (p.1 - 0.5) + (p.2 - 0.5) * (p.2 - 0.5) > 0.1 <;> simp [hc]
    · intro l hl
      rw [spiral_y] at hl
      rcases List.mem_append.1 hl with hl | hl <;>
        simp [List.eq_of_mem_replicate hl]

/-- Claim C4: the registry recognizes exactly the six names `"Simple"`,
`"Diag"`, `"Split"`, `"Xor"`, `"Circle"`, `"Spiral"`, mapping each to its
corresponding generator function; looking up any other name (for example
`"Foo"`) fails — modelled as `none`, Python's `KeyError` — and lookup is
exact-match and case-sensitive (any string not literally equal to one of
the six, including case variants, yields `none`). -/
theorem C4_registry_exact :
    (∀ name : String,
      name ∉ (["Simple", "Diag", "Split", "Xor", "Circle", "Spiral"] : List String) →
      get_generator name = none) ∧
    get_generator "Simple" = some GenTag.simple ∧
    get_generator "Diag" = some GenTag.diag ∧
    get_generator "Split" = some GenTag.split ∧
    get_generator "Xor" = some GenTag.xor ∧
    get_generator "Circle" = some GenTag.circle ∧
    get_generator "Spiral" = some GenTag.spiral ∧
    get_generator "Foo" = none ∧
    (∀ rng : ℕ → Point, ∀ mcos msin : ℚ → ℚ, ∀ N : ℤ,
      GenTag.run GenTag.simple rng mcos msin N = simple rng N ∧
      GenTag.run GenTag.diag rng mcos msin N = diag rng N ∧
      GenTag.run GenTag.split rng mcos msin N = split rng N ∧
      GenTag.run GenTag.xor rng mcos msin N = xor rng N ∧
      GenTag.run GenTag.circle rng mcos msin N = circle rng N ∧
      GenTag.run GenTag.spiral rng mcos msin N = spiral mcos msin N) := by
  refine ⟨?_, rfl, rfl, rfl, rfl, rfl, rfl, rfl,
    fun _ _ _ _ => ⟨rfl, rfl, rfl, rfl, rfl, rfl⟩⟩
  intro name h
  simp only [List.mem_cons, List.not_mem_nil, or_false, not_or] at h
  obtain ⟨h1, h2, h3, h4, h5, h6⟩ := h
  have f1 : "Simple" ≠ name := fun e => h1 e.symm
  have f2 : "Diag" ≠ name := fun e => h2 e.symm
  have f3 : "Split" ≠ name := fun e => h3 e.symm
  have f4 : "Xor" ≠ name := fun e => h4 e.symm
  have f5 : "Circle" ≠ name := fun e => h5 e.symm
  have f6 : "Spiral" ≠ name := fun e => h6 e.symm
  simp [get_generator, datasets, List.find?_cons_of_neg, beq_iff_eq,
    f1, f2, f3, f4, f5, f6]

/-- Claim C8: for `N ≥ 2`, `spiral` produces exactly `2 * (N // 2)` points:
the `N // 2` curve-0 points for indices `5 ≤ i < 5 + N // 2` with
`t = 10.0 * (i / (N // 2))`, point `(t*cos(t)/20 + 0.5, t*sin(t)/20 + 0.5)`,
followed by the `N // 2` curve-1 points (coordinate roles swapped, `t`
negated); labels are `N // 2` zeros followed by `N // 2` ones; for odd `N`
one point fewer than requested is produced. -/
theorem C8_spiral_structure (mcos msin : ℚ → ℚ) (N : ℤ) (hN : 2 ≤ N) :
    ((spiral mcos msin N).X.length : ℤ) = 2 * Int.fdiv N 2 ∧
    (spiral mcos msin N).X =
      (List.range' 5 (Int.fdiv N 2).toNat).map
        (spiralCurve0 mcos msin (Int.fdiv N 2)) ++
      (List.range' 5 (Int.fdiv N 2).toNat).map
        (spiralCurve1 mcos msin (Int.fdiv N 2)) ∧
    (spiral mcos msin N).y =
      List.replicate (Int.fdiv N 2).toNat 0 ++
      List.replicate (Int.fdiv N 2).toNat 1 ∧
    (N % 2 = 1 → ((spiral mcos msin N).X.length : ℤ) = N - 1) := by
  have h2 := half_eq N
  refine ⟨?_, spiral_X mcos msin N, spiral_y mcos msin N, ?_⟩
  · rw [spiral_X_length, h2]
    omega
  · intro hodd
    rw [spiral_X_length, h2]
    omega

/-- Claim C8, witness at `N = 4` with both trigonometric parameters the
constant-zero function. -/
theorem C8_witness :
    (2 : ℤ) ≤ 4 ∧
    (((spiral (fun _ => (0 : ℚ)) (fun _ => (0 : ℚ)) 4).X.length : ℤ) =
      2 * Int.fdiv 4 2 ∧
    (spiral (fun _ => (0 : ℚ)) (fun _ => (0 : ℚ)) 4).X =
      (List.range' 5 (Int.fdiv 4 2).toNat).map
        (spiralCurve0 (fun _ => (0 : ℚ)) (fun _ => (0 : ℚ)) (Int.fdiv 4 2)) ++
      (List.range' 5 (Int.fdiv 4 2).toNat).map
        (spiralCurve1 (fun _ => (0 : ℚ)) (fun _ => (0 : ℚ)) (Int.fdiv 4 2)) ∧
    (spiral (fun _ => (0 : ℚ)) (fun _ => (0 : ℚ)) 4).y =
      List.replicate (Int.fdiv 4 2).toNat 0 ++
      List.replicate (Int.fdiv 4 2).toNat 1 ∧
    ((4 : ℤ) % 2 = 1 →
      ((spiral (fun _ => (0 : ℚ)) (fun _ => (0 : ℚ)) 4).X.length : ℤ) = 4 - 1)) :=
  ⟨by norm_num,
   C8_spiral_structure (fun _ => (0 : ℚ)) (fun _ => (0 : ℚ)) 4 (by norm_num)⟩

/-- Claim C9, witness: at `N = 2` over the constant stream `(0.3, 0.7)`. -/
theorem C9_witness :
    (0 : ℤ) ≤ 2 ∧
    ((simple (fun _ => ((0.3 : ℚ), (0.7 : ℚ))) 2).X.length : ℤ) = 2 :=
  ⟨by norm_num,
   ((C9_count_and_binary_labels (fun _ => ((0.3 : ℚ), (0.7 : ℚ)))
      (fun _ => (0 : ℚ)) (fun _ => (0 : ℚ)) 2 (by norm_num)).1).1⟩

end Minitorch
